import Mathlib

/-!
# Verification of the kita-scraper media pipeline

Shallow embedding of the Python package `src/kita_scraper` (files `utils.py`,
`config.py`, `cli.py`) together with proofs about the embedded functions.

Python strings are modelled as `List Char` (`PyStr`); Python's `bytes` as
`List Nat`.  Effectful code (network fetch, filesystem write, EXIF tagging via
the imaging library) is modelled by explicit oracles describing the outcome of
each external call, an explicit association-list filesystem threaded through
the functions, and a trace of I/O events recording which external operations
were invoked.  A Python exception raised by an external call is a distinguished
oracle outcome; a `try/except` block is modelled by mapping that outcome to the
value returned by the handler.
-/

set_option autoImplicit false

namespace KitaScraper

/-- A Python string, modelled as its list of characters. -/
abbrev PyStr := List Char

/-- Coerce a Lean string literal to the `PyStr` model. -/
def S (s : String) : PyStr := s.data

/-- Bytes of a downloaded resource (`bytes` in Python). -/
abbrev Content := List Nat

/-! ## Embedding of `utils.create_filename` (utils.py lines 22-44) -/

/-- A calendar date, the part of a Python `datetime` that `utils.py` uses. -/
structure Date where
  year : Nat
  month : Nat
  day : Nat
deriving DecidableEq, Repr

/-- Fuel-driven accumulator loop computing the decimal digits of `n` in front
of `acc`.  Structural recursion on the fuel keeps it kernel-reducible. -/
def pyStrNatCore : Nat → Nat → PyStr → PyStr
  | 0, _, acc => acc
  | fuel + 1, n, acc =>
    let acc1 := Nat.digitChar (n % 10) :: acc
    if n < 10 then acc1 else pyStrNatCore fuel (n / 10) acc1

/-- Decimal representation of a natural number, the embedding of Python's
`str` on a non-negative `int` (no sign, no leading zeros, `"0"` for zero). -/
def pyStrNat (n : Nat) : PyStr :=
  pyStrNatCore (n + 1) n []

/-- Recursive reference form of `pyStrNat`, used only in proofs. -/
def pyStrNatSpec (n : Nat) : PyStr :=
  if h : n < 10 then [Nat.digitChar n]
  else pyStrNatSpec (n / 10) ++ [Nat.digitChar (n % 10)]
decreasing_by exact Nat.div_lt_self (Nat.lt_of_lt_of_le (by decide) (Nat.le_of_not_lt h)) (by decide)

/-- Zero-pad a number to two digits, as `strftime` does for `%m` and `%d`. -/
def pad2 (n : Nat) : PyStr :=
  if n < 10 then '0' :: pyStrNat n else pyStrNat n

/-- Zero-pad a number to four digits, as `strftime` does for `%Y`. -/
def pad4 (n : Nat) : PyStr :=
  if n < 10 then '0' :: '0' :: '0' :: pyStrNat n
  else if n < 100 then '0' :: '0' :: pyStrNat n
  else if n < 1000 then '0' :: pyStrNat n
  else pyStrNat n

/-- Embedding of `day.strftime("%Y-%m-%d")`. -/
def strftimeYmd (d : Date) : PyStr :=
  pad4 d.year ++ '-' :: pad2 d.month ++ '-' :: pad2 d.day

/-- Embedding of Python `s.rsplit(sep, 1)[-1]` for a one-character separator:
the substring after the last occurrence of `sep`, or all of `s` when `sep`
does not occur. -/
def pyRsplitLast (sep : Char) (s : PyStr) : PyStr :=
  (s.reverse.takeWhile (fun c => c != sep)).reverse

/-- Embedding of Python `s.replace(c, "")` for a one-character pattern. -/
def removeChar (c : Char) (s : PyStr) : PyStr :=
  s.filter (fun x => x != c)

/-- Characters that `pathvalidate` treats as invalid in a filename on its
default (`universal`) platform: the ASCII control characters and
`\\ / : * ? " < > |`. -/
def isInvalidFilenameChar (c : Char) : Bool :=
  c == '\\' || c == '/' || c == ':' || c == '*' || c == '?' || c == '"' ||
    c == '<' || c == '>' || c == '|' || decide (c.toNat < 32)

/-- Model of the third-party `pathvalidate.sanitize_filename` with its default
arguments, as imported by `utils.py`: every invalid character is replaced by
the empty replacement text (that is, removed) and the result is then truncated
to the default `max_len` of 255 characters. -/
def sanitize_filename (s : PyStr) : PyStr :=
  (s.filter (fun c => !(isInvalidFilenameChar c))).take 255

/-- The local `base_name` of `create_filename` (utils.py line 37):
`f"{day.strftime('%Y-%m-%d')}_{title}-{counter}"`. -/
def cf_base_name (day : Date) (title : PyStr) (counter : Nat) : PyStr :=
  strftimeYmd day ++ '_' :: title ++ '-' :: pyStrNat counter

/-- Embedding of `utils.create_filename` (utils.py lines 22-44). -/
def create_filename (day : Date) (title : PyStr) (counter : Nat) (url : PyStr) : PyStr :=
  let original_file_name := pyRsplitLast '/' url
  let extension := if '.' ∈ original_file_name then pyRsplitLast '.' original_file_name else []
  let base_name := cf_base_name day title counter
  let sanitized_base :=
    removeChar '&' (removeChar '*' (removeChar '/' (removeChar ':' base_name)))
  let sanitized_base := sanitize_filename sanitized_base
  if extension ≠ [] then sanitized_base ++ '.' :: extension else sanitized_base

/-! ## Effect model for the download pipeline (utils.py lines 47-135)

The filesystem is an association list from paths to byte contents; a write
prepends its entry, so `FS.lookup` sees the most recent write.  The outcome of
each external call is given by an oracle: `FetchOracle` describes what
`urlopen(url).read()` does for each URL (either bytes or a raised exception),
and `ExifOracle` describes what the imaging library does for each path once
`add_date_to_exif` gets past its extension check (raise, report an image with
no EXIF block, or tag successfully; the in-place re-save of a tagged image is
recorded as an I/O event).  Each pipeline function also returns the trace of
external I/O events it performed, in order. -/

/-- Result of a fallible Python computation: a value, or a raised exception. -/
inductive PyResult (α : Type) where
  | ok (a : α)
  | exn
deriving DecidableEq, Repr

/-- The modelled filesystem. -/
abbrev FS := List (PyStr × Content)

/-- Outcome of `urlopen(url)` followed by `.read()` for each URL. -/
abbrev FetchOracle := PyStr → PyResult Content

/-- Outcome of the imaging-library steps of `add_date_to_exif` for a path. -/
inductive ExifStep where
  | raise
  | noExif
  | tagged
deriving DecidableEq, Repr

/-- Per-path oracle for the imaging-library steps of `add_date_to_exif`. -/
abbrev ExifOracle := PyStr → ExifStep

/-- One external I/O operation performed by the pipeline. -/
inductive IOEvent where
  | fetchEv (url : PyStr)
  | writeEv (path : PyStr) (content : Content)
  | exifEv (path : PyStr)
deriving DecidableEq, Repr

/-- Embedding of `utils.download_file` (utils.py lines 47-66): fetch the full
content, then write it to `output_path`; any exception is caught and turned
into `false`.  Returns the flag, the new filesystem and the I/O trace. -/
def download_file (fetch : FetchOracle) (url : PyStr) (output_path : PyStr) (fs : FS) :
    Bool × FS × List IOEvent :=
  match fetch url with
  | .ok content => (true, (output_path, content) :: fs, [.fetchEv url, .writeEv output_path content])
  | .exn => (false, fs, [.fetchEv url])

/-- Python `str.lower`, modelled character by character. -/
def pyLower (s : PyStr) : PyStr := s.map Char.toLower

/-- The extension allow-list check of `add_date_to_exif` (utils.py line 81):
`str(image_path).lower().endswith((".jpg", ".jpeg", ".png", ".tiff", ".tif"))`. -/
def hasImageExtension (p : PyStr) : Bool :=
  let low := pyLower p
  (S ".jpg").isSuffixOf low || (S ".jpeg").isSuffixOf low || (S ".png").isSuffixOf low ||
    (S ".tiff").isSuffixOf low || (S ".tif").isSuffixOf low

/-- The body of the `try` block of `utils.add_date_to_exif` (utils.py lines
80-96).  `PyResult.exn` is an exception escaping the `try` block. -/
def add_date_to_exif_try (exifOracle : ExifOracle) (image_path : PyStr) : PyResult Bool :=
  if !(hasImageExtension image_path) then .ok false
  else
    match exifOracle image_path with
    | .raise => .exn
    | .noExif => .ok false
    | .tagged => .ok true

/-- Embedding of `utils.add_date_to_exif` (utils.py lines 69-99): the `try`
body with the `except` handler that converts any exception into `false`. -/
def add_date_to_exif (exifOracle : ExifOracle) (image_path : PyStr) : Bool :=
  match add_date_to_exif_try exifOracle image_path with
  | .ok b => b
  | .exn => false

/-- The loop body of `utils.download_media_files` (utils.py lines 122-133),
recursing over the remaining URLs.  `i` is the 1-based position from
`enumerate(urls, 1)`; `successful` and `failed` are the accumulated counters.
Returns `((successful, failed), fs, trace)`. -/
def download_media_files_go (fetch : FetchOracle) (exifOracle : ExifOracle) (day : Date)
    (title : PyStr) (output_dir : PyStr) :
    List PyStr → Nat → Nat → Nat → FS → (Nat × Nat) × FS × List IOEvent
  | [], _, successful, failed, fs => ((successful, failed), fs, [])
  | url :: rest, i, successful, failed, fs =>
    let filename := create_filename day title i url
    let output_path := output_dir ++ '/' :: filename
    let dl := download_file fetch url output_path fs
    if dl.1 then
      let r := download_media_files_go fetch exifOracle day title output_dir rest (i + 1)
        (successful + 1) failed dl.2.1
      (r.1, r.2.1, dl.2.2 ++ IOEvent.exifEv output_path :: r.2.2)
    else
      let r := download_media_files_go fetch exifOracle day title output_dir rest (i + 1)
        successful (failed + 1) dl.2.1
      (r.1, r.2.1, dl.2.2 ++ r.2.2)

/-- Embedding of `utils.download_media_files` (utils.py lines 102-135).
The result of `add_date_to_exif` is discarded by the source; its invocation on
each successfully downloaded file is recorded as an `exifEv` trace event. -/
def download_media_files (fetch : FetchOracle) (exifOracle : ExifOracle) (day : Date)
    (title : PyStr) (urls : List PyStr) (output_dir : PyStr) (fs : FS) :
    (Nat × Nat) × FS × List IOEvent :=
  download_media_files_go fetch exifOracle day title output_dir urls 1 0 0 fs

/-! ## Embedding of `config.ScraperConfig.from_env` (config.py lines 31-78) -/

/-- An environment mapping, `os.environ` or the dictionary passed to
`from_env`. -/
abbrev Env := List (String × String)

/-- Embedding of `env.get(key)`. -/
def envGet (env : Env) (key : String) : Option String :=
  (env.find? (fun p => p.1 == key)).map (fun p => p.2)

/-- Python truthiness of an optional string: `None` and `""` are falsy. -/
def pyTruthy : Option String → Bool
  | none => false
  | some s => s ≠ ""

/-- Embedding of the `ScraperConfig` dataclass (config.py lines 9-29). -/
structure ScraperConfig where
  email : String
  password : String
  base_url : String
  group_id : String
  day_from : Option String
  day_to : Option String
  output_dir : String
deriving DecidableEq, Repr

/-- Embedding of `ScraperConfig.from_env` (config.py lines 31-78).
`Except.error msg` models `raise ValueError(msg)`. -/
def from_env (env : Env) : Except String ScraperConfig :=
  let email := envGet env "EMAIL"
  let password := envGet env "PASSWORD"
  let base_url := envGet env "BASE_URL"
  let group_id := envGet env "GROUP_ID"
  let day_from := envGet env "DAY_FROM"
  let day_to := envGet env "DAY_TO"
  let output_dir := (envGet env "OUTPUT_DIR").getD "/data"
  let missing : List String :=
    (if !(pyTruthy email) then ["EMAIL"] else []) ++
    (if !(pyTruthy password) then ["PASSWORD"] else []) ++
    (if !(pyTruthy base_url) then ["BASE_URL"] else []) ++
    (if !(pyTruthy group_id) then ["GROUP_ID"] else [])
  if missing ≠ [] then
    .error ("Missing required environment variables: " ++ String.intercalate ", " missing)
  else
    .ok { email := email.getD "", password := password.getD "", base_url := base_url.getD "",
          group_id := group_id.getD "", day_from := day_from, day_to := day_to,
          output_dir := output_dir }

/-! ## Embedding of `cli.main` (cli.py lines 56-92)

Everything inside the `try` block after the configuration step — building the
scraper and `scraper.run()` — is an external collaborator; its outcome is an
argument: either the final `stats["download_failed"]` tally, or a raised
exception (caught by the generic handler).  Argument parsing and logging
configuration do not influence the exit code and are not modelled. -/

/-- Embedding of `cli.main` (cli.py lines 56-92), returning the exit code. -/
def cli_main (env : Env) (run : ScraperConfig → PyResult Nat) : Nat :=
  match from_env env with
  | .error _ => 1
  | .ok config =>
    match run config with
    | .exn => 1
    | .ok download_failed => if download_failed > 0 then 1 else 0

/-! ## Properties of the decimal representation -/

/-- The ten decimal digit characters. -/
def decimalDigits : PyStr := ['0', '1', '2', '3', '4', '5', '6', '7', '8', '9']

theorem digitChar_mem_decimalDigits : ∀ a : Fin 10, Nat.digitChar a ∈ decimalDigits := by decide

theorem digitChar_injOn : ∀ a b : Fin 10, Nat.digitChar a = Nat.digitChar b → a = b := by decide

theorem pyStrNatCore_eq_spec :
    ∀ (fuel n : Nat) (acc : PyStr), n < fuel →
      pyStrNatCore fuel n acc = pyStrNatSpec n ++ acc := by
  intro fuel
  induction fuel with
  | zero => intro n acc h; exact absurd h (Nat.not_lt_zero n)
  | succ fuel ih =>
    intro n acc h
    rw [pyStrNatCore]
    by_cases h10 : n < 10
    · simp only [h10, if_true]
      rw [pyStrNatSpec]
      simp [h10, Nat.mod_eq_of_lt h10]
    · simp only [h10, if_false]
      have hn : 0 < n := by omega
      have hdiv : n / 10 < fuel :=
        Nat.lt_of_lt_of_le (Nat.div_lt_self hn (by decide)) (Nat.le_of_lt_succ h)
      rw [ih (n / 10) _ hdiv]
      conv_rhs => rw [pyStrNatSpec]
      simp [h10]

theorem pyStrNat_eq_spec (n : Nat) : pyStrNat n = pyStrNatSpec n := by
  rw [pyStrNat, pyStrNatCore_eq_spec (n + 1) n [] (Nat.lt_succ_self n), List.append_nil]

theorem pyStrNatSpec_ne_nil (n : Nat) : pyStrNatSpec n ≠ [] := by
  rw [pyStrNatSpec]
  split <;> simp

theorem mem_pyStrNatSpec (n : Nat) : ∀ c ∈ pyStrNatSpec n, c ∈ decimalDigits := by
  induction n using Nat.strong_induction_on with
  | _ n ih =>
    intro c hc
    rw [pyStrNatSpec] at hc
    by_cases h10 : n < 10
    · simp only [h10, dif_pos] at hc
      rw [List.mem_singleton] at hc
      exact hc ▸ digitChar_mem_decimalDigits ⟨n, h10⟩
    · simp only [h10, dif_neg, not_false_iff, List.mem_append] at hc
      rcases hc with hc | hc
      · exact ih (n / 10) (Nat.div_lt_self (by omega) (by decide)) c hc
      · rw [List.mem_singleton] at hc
        exact hc ▸ digitChar_mem_decimalDigits ⟨n % 10, Nat.mod_lt _ (by decide)⟩

theorem pyStrNatSpec_unfold (n : Nat) :
    pyStrNatSpec n =
      if n < 10 then [Nat.digitChar n] else pyStrNatSpec (n / 10) ++ [Nat.digitChar (n % 10)] := by
  rw [pyStrNatSpec]
  by_cases h : n < 10 <;> simp [h]

theorem pyStrNatSpec_injective : ∀ a b : Nat, pyStrNatSpec a = pyStrNatSpec b → a = b := by
  intro a
  induction a using Nat.strong_induction_on with
  | _ a ih =>
    intro b h
    rw [pyStrNatSpec_unfold a, pyStrNatSpec_unfold b] at h
    by_cases ha : a < 10 <;> by_cases hb : b < 10
    · simp only [ha, hb, if_true] at h
      rw [List.cons.injEq] at h
      exact congrArg Fin.val (digitChar_injOn ⟨a, ha⟩ ⟨b, hb⟩ h.1)
    · exfalso
      simp only [ha, hb, if_true, if_false] at h
      have hl := congrArg List.length h
      simp only [List.length_singleton, List.length_append] at hl
      have hpos := List.length_pos.mpr (pyStrNatSpec_ne_nil (b / 10))
      omega
    · exfalso
      simp only [ha, hb, if_true, if_false] at h
      have hl := congrArg List.length h
      simp only [List.length_singleton, List.length_append] at hl
      have hpos := List.length_pos.mpr (pyStrNatSpec_ne_nil (a / 10))
      omega
    · simp only [ha, hb, if_false] at h
      obtain ⟨h1, h2⟩ := List.append_inj' h (by simp)
      have hdiv : a / 10 = b / 10 :=
        ih (a / 10) (Nat.div_lt_self (by omega) (by decide)) (b / 10) h1
      rw [List.cons.injEq] at h2
      have hmod : a % 10 = b % 10 :=
        congrArg Fin.val (digitChar_injOn ⟨a % 10, Nat.mod_lt _ (by decide)⟩
          ⟨b % 10, Nat.mod_lt _ (by decide)⟩ h2.1)
      omega

theorem pyStrNat_injective (a b : Nat) (h : pyStrNat a = pyStrNat b) : a = b :=
  pyStrNatSpec_injective a b (by rw [← pyStrNat_eq_spec, ← pyStrNat_eq_spec]; exact h)

theorem mem_pyStrNat (n : Nat) : ∀ c ∈ pyStrNat n, c ∈ decimalDigits := by
  rw [pyStrNat_eq_spec]; exact mem_pyStrNatSpec n

/-! ## Batch lemmas about `download_media_files` -/

/-- Whether the fetch of `u` raises an exception under the oracle `fetch`. -/
def fetchRaises (fetch : FetchOracle) (u : PyStr) : Bool :=
  match fetch u with
  | .exn => true
  | .ok _ => false

/-- Project a trace event to the URL it fetched, if it is a fetch. -/
def fetchEvUrl : IOEvent → Option PyStr
  | .fetchEv u => some u
  | _ => none

/-- Project a trace event to the path it wrote, if it is a write. -/
def writeEvPath : IOEvent → Option PyStr
  | .writeEv p _ => some p
  | _ => none

/-- The output paths the pipeline is expected to write for `urls`, starting at
1-based position `i`: one path, derived by `create_filename`, for each URL
whose fetch succeeds, in input order, and none for a URL whose fetch raises. -/
def expectedWrites (fetch : FetchOracle) (day : Date) (title : PyStr) (output_dir : PyStr) :
    List PyStr → Nat → List PyStr
  | [], _ => []
  | u :: rest, i =>
    if fetchRaises fetch u then expectedWrites fetch day title output_dir rest (i + 1)
    else (output_dir ++ '/' :: create_filename day title i u) ::
      expectedWrites fetch day title output_dir rest (i + 1)

theorem download_media_files_go_counts (fetch : FetchOracle) (exifOracle : ExifOracle)
    (day : Date) (title : PyStr) (output_dir : PyStr) :
    ∀ (urls : List PyStr) (i s f : Nat) (fs : FS),
      (download_media_files_go fetch exifOracle day title output_dir urls i s f fs).1 =
        (s + urls.countP (fun u => !(fetchRaises fetch u)), f + urls.countP (fetchRaises fetch)) := by
  intro urls
  induction urls with
  | nil => intro i s f fs; simp [download_media_files_go]
  | cons url rest ih =>
    intro i s f fs
    rw [download_media_files_go]
    cases hu : fetch url <;>
      simp [download_file, hu, ih, fetchRaises, List.countP_cons] <;> omega

theorem download_media_files_go_fetch_trace (fetch : FetchOracle) (exifOracle : ExifOracle)
    (day : Date) (title : PyStr) (output_dir : PyStr) :
    ∀ (urls : List PyStr) (i s f : Nat) (fs : FS),
      (download_media_files_go fetch exifOracle day title output_dir urls i s f fs).2.2.filterMap
        fetchEvUrl = urls := by
  intro urls
  induction urls with
  | nil => intro i s f fs; simp [download_media_files_go]
  | cons url rest ih =>
    intro i s f fs
    rw [download_media_files_go]
    cases hu : fetch url <;>
      simp [download_file, hu, ih, fetchEvUrl]

theorem download_media_files_go_write_trace (fetch : FetchOracle) (exifOracle : ExifOracle)
    (day : Date) (title : PyStr) (output_dir : PyStr) :
    ∀ (urls : List PyStr) (i s f : Nat) (fs : FS),
      (download_media_files_go fetch exifOracle day title output_dir urls i s f fs).2.2.filterMap
        writeEvPath = expectedWrites fetch day title output_dir urls i := by
  intro urls
  induction urls with
  | nil => intro i s f fs; simp [download_media_files_go, expectedWrites]
  | cons url rest ih =>
    intro i s f fs
    rw [download_media_files_go, expectedWrites]
    cases hu : fetch url <;>
      simp [download_file, hu, ih, writeEvPath, fetchRaises]

theorem download_media_files_go_counts_exif_free (fetch : FetchOracle)
    (e1 e2 : ExifOracle) (day : Date) (title : PyStr) (output_dir : PyStr) :
    ∀ (urls : List PyStr) (i s f : Nat) (fs : FS),
      (download_media_files_go fetch e1 day title output_dir urls i s f fs).1 =
        (download_media_files_go fetch e2 day title output_dir urls i s f fs).1 := by
  intro urls
  induction urls with
  | nil => intro i s f fs; rfl
  | cons url rest ih =>
    intro i s f fs
    rw [download_media_files_go, download_media_files_go]
    cases hu : fetch url <;> simp [download_file, hu, ih]

/-! ## The claims -/

/-- C1: for every date, title and URL list (and every behaviour of the network
and of the EXIF tagger), `download_media_files` returns a pair
`(successful, failed)` whose sum equals the number of URLs. -/
theorem downloadMediaFiles_counts_sum_to_length (fetch : FetchOracle) (exifOracle : ExifOracle)
    (day : Date) (title : PyStr) (urls : List PyStr) (output_dir : PyStr) (fs : FS) :
    (download_media_files fetch exifOracle day title urls output_dir fs).1.1 +
      (download_media_files fetch exifOracle day title urls output_dir fs).1.2 =
      urls.length := by
  rw [download_media_files, download_media_files_go_counts]
  simp only [Nat.zero_add]
  rw [Nat.add_comm, List.countP_eq_length_filter, List.countP_eq_length_filter]
  rw [← List.length_append, ← List.filter_append_perm _ urls |>.length_eq]

/-- C5: a URL whose fetch raises is tallied as exactly one failure (the failure
count is the number of URLs whose fetch raises), gets no write (the write trace
contains exactly one derived path per successfully fetched URL, in input
order), and does not stop the batch: every URL of the list is fetched, in input
order, and no exception escapes (`download_media_files` is a total function
into counts, filesystem and trace). -/
theorem downloadMediaFiles_failure_isolation (fetch : FetchOracle) (exifOracle : ExifOracle)
    (day : Date) (title : PyStr) (urls : List PyStr) (output_dir : PyStr) (fs : FS) :
    (download_media_files fetch exifOracle day title urls output_dir fs).2.2.filterMap
        fetchEvUrl = urls ∧
    (download_media_files fetch exifOracle day title urls output_dir fs).1.2 =
      urls.countP (fetchRaises fetch) ∧
    (download_media_files fetch exifOracle day title urls output_dir fs).1.1 =
      urls.countP (fun u => !(fetchRaises fetch u)) ∧
    (download_media_files fetch exifOracle day title urls output_dir fs).2.2.filterMap
        writeEvPath = expectedWrites fetch day title output_dir urls 1 := by
  refine ⟨?_, ?_, ?_, ?_⟩
  · exact download_media_files_go_fetch_trace fetch exifOracle day title output_dir urls 1 0 0 fs
  · rw [download_media_files, download_media_files_go_counts]; simp
  · rw [download_media_files, download_media_files_go_counts]; simp
  · exact download_media_files_go_write_trace fetch exifOracle day title output_dir urls 1 0 0 fs

/-- C6: an exception escaping the `try` body of `add_date_to_exif` is turned
into the return value `false` (never re-raised), and the outcome of the EXIF
tagger never changes the success/failure counters of `download_media_files`:
replacing the tagger's behaviour by any other behaviour leaves the counters
unchanged, so a downloaded file whose tagging fails still counts as a
success. -/
theorem addDateToExif_never_raises (exifOracle : ExifOracle) (image_path : PyStr)
    (h : add_date_to_exif_try exifOracle image_path = PyResult.exn) :
    add_date_to_exif exifOracle image_path = false ∧
    ∀ (fetch : FetchOracle) (e2 : ExifOracle) (day : Date) (title : PyStr)
      (urls : List PyStr) (output_dir : PyStr) (fs : FS),
      (download_media_files fetch exifOracle day title urls output_dir fs).1 =
        (download_media_files fetch e2 day title urls output_dir fs).1 := by
  constructor
  · rw [add_date_to_exif, h]
  · intro fetch e2 day title urls output_dir fs
    exact download_media_files_go_counts_exif_free fetch exifOracle e2 day title output_dir
      urls 1 0 0 fs

/-- Witness for C6 at a concrete input: an oracle that raises on a `.jpg`
path, compared against one that tags successfully. -/
theorem addDateToExif_never_raises_witness :
    add_date_to_exif_try (fun _ => ExifStep.raise) (S "a.jpg") = PyResult.exn ∧
    add_date_to_exif (fun _ => ExifStep.raise) (S "a.jpg") = false ∧
    (download_media_files (fun _ => PyResult.ok [1]) (fun _ => ExifStep.raise) ⟨2023, 1, 1⟩
        (S "T") [S "https://x/a.jpg"] (S "/data") []).1 =
      (download_media_files (fun _ => PyResult.ok [1]) (fun _ => ExifStep.tagged) ⟨2023, 1, 1⟩
        (S "T") [S "https://x/a.jpg"] (S "/data") []).1 :=
  ⟨by decide,
    (addDateToExif_never_raises (fun _ => ExifStep.raise) (S "a.jpg") (by decide)).1,
    (addDateToExif_never_raises (fun _ => ExifStep.raise) (S "a.jpg") (by decide)).2
      (fun _ => PyResult.ok [1]) (fun _ => ExifStep.tagged) ⟨2023, 1, 1⟩
      (S "T") [S "https://x/a.jpg"] (S "/data") []⟩

/-- C7: on the empty URL list `download_media_files` returns the counters
`(0, 0)`, leaves the filesystem unchanged and performs no I/O at all: the
event trace is empty, so neither the fetch, nor a write, nor the EXIF tagger
is invoked. -/
theorem downloadMediaFiles_empty_no_io (fetch : FetchOracle) (exifOracle : ExifOracle)
    (day : Date) (title : PyStr) (output_dir : PyStr) (fs : FS) :
    download_media_files fetch exifOracle day title [] output_dir fs = ((0, 0), fs, []) := rfl

/-- C10: when the fetch raises, `download_file` returns `false`, the
filesystem is exactly the one it was given (the file at the output path is
neither created nor modified), and the only I/O performed is the attempted
fetch — the write is attempted only after the fetch has fully succeeded. -/
theorem downloadFile_fetch_failure_leaves_fs (fetch : FetchOracle) (url output_path : PyStr)
    (fs : FS) (h : fetch url = PyResult.exn) :
    download_file fetch url output_path fs = (false, fs, [IOEvent.fetchEv url]) := by
  rw [download_file, h]

/-- Witness for C10 at a concrete input: a failing fetch over a filesystem
that already holds a file at the target path. -/
theorem downloadFile_fetch_failure_leaves_fs_witness :
    (fun _ : PyStr => (PyResult.exn : PyResult Content)) (S "https://x/a.jpg") = PyResult.exn ∧
    download_file (fun _ => PyResult.exn) (S "https://x/a.jpg") (S "/data/a.jpg")
        [(S "/data/a.jpg", [7, 7])] =
      (false, [(S "/data/a.jpg", [7, 7])], [IOEvent.fetchEv (S "https://x/a.jpg")]) :=
  ⟨rfl, downloadFile_fetch_failure_leaves_fs (fun _ => PyResult.exn) (S "https://x/a.jpg")
    (S "/data/a.jpg") [(S "/data/a.jpg", [7, 7])] rfl⟩

/-! ## Claims about the configuration and the CLI -/

/-- The four required configuration keys, in the order the source checks
them. -/
def requiredKeys : List String := ["EMAIL", "PASSWORD", "BASE_URL", "GROUP_ID"]

/-- The required keys that `from_env` treats as missing for `env`: those whose
value is absent or empty (Python truthiness of `env.get(key)`). -/
def missingKeys (env : Env) : List String :=
  requiredKeys.filter (fun k => !(pyTruthy (envGet env k)))

/-- The configuration `from_env` builds once no required key is missing. -/
def configOf (env : Env) : ScraperConfig :=
  { email := (envGet env "EMAIL").getD "", password := (envGet env "PASSWORD").getD "",
    base_url := (envGet env "BASE_URL").getD "", group_id := (envGet env "GROUP_ID").getD "",
    day_from := envGet env "DAY_FROM", day_to := envGet env "DAY_TO",
    output_dir := (envGet env "OUTPUT_DIR").getD "/data" }

/-- C8 counterexample: in an environment where all four required keys are
present but `EMAIL` is bound to the empty string, no required key is missing,
yet `from_env` raises a configuration error naming `EMAIL` — the claim that an
error is raised exactly for missing keys, and none when no key is missing, is
false as stated. -/
theorem fromEnv_empty_value_counterexample :
    (envGet [("EMAIL", ""), ("PASSWORD", "p"), ("BASE_URL", "b"), ("GROUP_ID", "g")]
      "EMAIL").isSome = true ∧
    (envGet [("EMAIL", ""), ("PASSWORD", "p"), ("BASE_URL", "b"), ("GROUP_ID", "g")]
      "PASSWORD").isSome = true ∧
    (envGet [("EMAIL", ""), ("PASSWORD", "p"), ("BASE_URL", "b"), ("GROUP_ID", "g")]
      "BASE_URL").isSome = true ∧
    (envGet [("EMAIL", ""), ("PASSWORD", "p"), ("BASE_URL", "b"), ("GROUP_ID", "g")]
      "GROUP_ID").isSome = true ∧
    from_env [("EMAIL", ""), ("PASSWORD", "p"), ("BASE_URL", "b"), ("GROUP_ID", "g")] =
      Except.error "Missing required environment variables: EMAIL" :=
  ⟨rfl, rfl, rfl, rfl, rfl⟩

/-- C8 (amended): for every environment, `from_env` raises exactly one
configuration error whose message names, in the fixed order EMAIL, PASSWORD,
BASE_URL, GROUP_ID, exactly the set of required keys that are missing or bound
to an empty value, and raises no error exactly when no required key is missing
or empty. -/
theorem fromEnv_error_names_missing_keys (env : Env) :
    from_env env =
      (if missingKeys env = [] then Except.ok (configOf env)
       else Except.error ("Missing required environment variables: " ++
         String.intercalate ", " (missingKeys env))) := by
  rw [from_env, missingKeys, requiredKeys, configOf]
  cases h1 : pyTruthy (envGet env "EMAIL") <;>
    cases h2 : pyTruthy (envGet env "PASSWORD") <;>
      cases h3 : pyTruthy (envGet env "BASE_URL") <;>
        cases h4 : pyTruthy (envGet env "GROUP_ID") <;>
          simp [h1, h2, h3, h4, List.filter]

/-- C9: the CLI entry point returns only the exit codes 0 and 1, and returns 0
exactly when configuration loading succeeded, the run raised no unhandled
exception, and the final download-failure tally is zero; any download failure,
configuration error or unhandled exception yields 1. -/
theorem cliMain_exit_code (env : Env) (run : ScraperConfig → PyResult Nat) :
    (cli_main env run = 0 ∨ cli_main env run = 1) ∧
    (cli_main env run = 0 ↔
      ∃ config, from_env env = Except.ok config ∧ run config = PyResult.ok 0) := by
  rw [cli_main]
  cases hc : from_env env with
  | error m => simp
  | ok config =>
    cases hr : run config with
    | exn => simp [hr]
    | ok n =>
      simp only [hr]
      by_cases hn : n > 0 <;> simp [hn, hr] <;> omega

/-! ## Claims about `create_filename` -/

/-- Embedding of the title preparation in `scraper._process_journal_entry`
(scraper.py line 185): `entry_title = entry_title[:25]`, applied before the
title is handed to the download pipeline. -/
def process_entry_title (entry_title : PyStr) : PyStr := entry_title.take 25

/-- C3 counterexample: `create_filename` itself does not truncate the title.
With a 26-character title, the filename built from the full title differs from
the one built from its first 25 characters. -/
theorem createFilename_no_truncation_counterexample :
    create_filename ⟨2023, 1, 1⟩ (S "abcdefghijklmnopqrstuvwxyz") 1 (S "https://x/a.jpg") ≠
      create_filename ⟨2023, 1, 1⟩ ((S "abcdefghijklmnopqrstuvwxyz").take 25) 1
        (S "https://x/a.jpg") := by decide

/-- C3 (amended): the truncation of the entry title to its first 25 characters
happens in the caller, `_process_journal_entry`, before `create_filename` is
invoked; `create_filename` uses the title it receives unmodified.  Composed
with the caller's truncation, the derived filename therefore depends only on
the first 25 characters of the entry title. -/
theorem entryFilename_depends_on_first_25 (day : Date) (t1 t2 : PyStr) (counter : Nat)
    (url : PyStr) (h : t1.take 25 = t2.take 25) :
    create_filename day (process_entry_title t1) counter url =
      create_filename day (process_entry_title t2) counter url := by
  rw [process_entry_title, process_entry_title, h]

/-- Witness for C3 at concrete inputs: two titles agreeing on their first 25
characters but differing at the 26th produce the same filename once the
caller's truncation is applied. -/
theorem entryFilename_depends_on_first_25_witness :
    (S "aaaaaaaaaaaaaaaaaaaaaaaaaX").take 25 = (S "aaaaaaaaaaaaaaaaaaaaaaaaaY").take 25 ∧
    create_filename ⟨2023, 1, 1⟩ (process_entry_title (S "aaaaaaaaaaaaaaaaaaaaaaaaaX")) 1
        (S "https://x/a.jpg") =
      create_filename ⟨2023, 1, 1⟩ (process_entry_title (S "aaaaaaaaaaaaaaaaaaaaaaaaaY")) 1
        (S "https://x/a.jpg") :=
  ⟨by decide, entryFilename_depends_on_first_25 ⟨2023, 1, 1⟩ (S "aaaaaaaaaaaaaaaaaaaaaaaaaX")
    (S "aaaaaaaaaaaaaaaaaaaaaaaaaY") 1 (S "https://x/a.jpg") (by decide)⟩

/-- The `extension` local of `create_filename` (utils.py lines 34-35): the
text after the last `.` of the last path segment of the URL, or empty when the
last segment has no `.`. -/
def cf_extension (url : PyStr) : PyStr :=
  let original_file_name := pyRsplitLast '/' url
  if '.' ∈ original_file_name then pyRsplitLast '.' original_file_name else []

/-- The `sanitized_base` local of `create_filename` (utils.py lines 39-40). -/
def cf_sanitized_base (day : Date) (title : PyStr) (counter : Nat) : PyStr :=
  sanitize_filename
    (removeChar '&' (removeChar '*' (removeChar '/' (removeChar ':' (cf_base_name day title counter)))))

theorem mem_pyRsplitLast {sep c : Char} {s : PyStr} (h : c ∈ pyRsplitLast sep s) : c ∈ s := by
  rw [pyRsplitLast, List.mem_reverse] at h
  exact List.mem_reverse.mp (List.takeWhile_subset _ h)

/-- Shape of `create_filename` in terms of its `sanitized_base` and
`extension` locals. -/
theorem create_filename_eq_base_ext (day : Date) (title : PyStr) (counter : Nat) (url : PyStr) :
    create_filename day title counter url =
      (if cf_extension url = [] then cf_sanitized_base day title counter
       else cf_sanitized_base day title counter ++ '.' :: cf_extension url) := by
  rw [create_filename, cf_extension, cf_sanitized_base]
  by_cases hd : '.' ∈ pyRsplitLast '/' url
  · simp only [hd, if_true]
    by_cases he : pyRsplitLast '.' (pyRsplitLast '/' url) = [] <;> simp [he]
  · simp [hd]

/-- C4 counterexample: the URL `https://x.com/image` contains a `.` (in the
host), yet the derived filename carries no dot-extension at all — so "no
extension exactly when the URL contains no `.`" is false as stated; the check
looks only at the last path segment. -/
theorem createFilename_extension_counterexample :
    ('.' ∈ S "https://x.com/image") ∧
    create_filename ⟨2023, 1, 1⟩ (S "Test Title") 1 (S "https://x.com/image") =
      S "2023-01-01_Test Title-1" ∧
    '.' ∉ S "2023-01-01_Test Title-1" := by decide

/-- C4 (amended): the extension is the substring of the URL's *last path
segment* after that segment's last `.`; the result is the sanitized base with
`.` and that extension appended when the extension is non-empty, and the bare
sanitized base when it is empty — which happens exactly when the last segment
has no `.` or ends in `.`.  In particular a URL with no `.` anywhere yields an
empty extension; but a `.` earlier in the URL does not produce one. -/
theorem createFilename_extension_from_last_segment (day : Date) (title : PyStr) (counter : Nat)
    (url : PyStr) :
    create_filename day title counter url =
      (if cf_extension url = [] then cf_sanitized_base day title counter
       else cf_sanitized_base day title counter ++ '.' :: cf_extension url) ∧
    ('.' ∉ url → cf_extension url = []) := by
  constructor
  · exact create_filename_eq_base_ext day title counter url
  · intro h
    rw [cf_extension]
    have hseg : '.' ∉ pyRsplitLast '/' url := fun hc => h (mem_pyRsplitLast hc)
    simp [hseg]

/-- Witness for C4 at a concrete input: a URL whose only `.` characters sit
outside the last path segment has an empty extension. -/
theorem createFilename_extension_from_last_segment_witness :
    ('.' ∉ S "https://x/image") ∧ cf_extension (S "https://x/image") = [] :=
  ⟨by decide, (createFilename_extension_from_last_segment ⟨2023, 1, 1⟩ (S "Test Title") 1
    (S "https://x/image")).2 (by decide)⟩

/-! ## C2: injectivity of `create_filename` over the ordinal -/

/-- The character-removal part of the sanitization pipeline of
`create_filename`: the four manual `replace` calls followed by the
character-filtering part of `sanitize_filename`, without the final
255-character truncation. -/
def filterPipeline (s : PyStr) : PyStr :=
  List.filter (fun c => !(isInvalidFilenameChar c))
    (removeChar '&' (removeChar '*' (removeChar '/' (removeChar ':' s))))

theorem filter_append_counter (p : Char → Bool) (hdash : p '-' = true)
    (hdig : ∀ c ∈ decimalDigits, p c = true) (P : PyStr) (n : Nat) :
    List.filter p (P ++ '-' :: pyStrNat n) = List.filter p P ++ '-' :: pyStrNat n := by
  rw [List.filter_append, List.filter_cons_of_pos hdash,
    List.filter_eq_self.mpr (fun a ha => hdig a (mem_pyStrNat n a ha))]

theorem filterPipeline_append_counter (P : PyStr) (n : Nat) :
    filterPipeline (P ++ '-' :: pyStrNat n) = filterPipeline P ++ '-' :: pyStrNat n := by
  simp only [filterPipeline, removeChar]
  rw [filter_append_counter (fun x => x != ':') (by decide) (by decide),
    filter_append_counter (fun x => x != '/') (by decide) (by decide),
    filter_append_counter (fun x => x != '*') (by decide) (by decide),
    filter_append_counter (fun x => x != '&') (by decide) (by decide),
    filter_append_counter (fun c => !(isInvalidFilenameChar c)) (by decide) (by decide)]

theorem filterPipeline_length_le (s : PyStr) : (filterPipeline s).length ≤ s.length := by
  rw [filterPipeline, removeChar, removeChar, removeChar, removeChar]
  exact le_trans (List.length_filter_le _ _) (le_trans (List.length_filter_le _ _)
    (le_trans (List.length_filter_le _ _) (le_trans (List.length_filter_le _ _)
      (List.length_filter_le _ _))))

theorem cf_sanitized_base_eq (day : Date) (title : PyStr) (counter : Nat)
    (h : (cf_base_name day title counter).length ≤ 255) :
    cf_sanitized_base day title counter =
      filterPipeline (strftimeYmd day ++ '_' :: title) ++ '-' :: pyStrNat counter := by
  have hb : cf_base_name day title counter =
      (strftimeYmd day ++ '_' :: title) ++ '-' :: pyStrNat counter := by
    simp [cf_base_name]
  have hstep : cf_sanitized_base day title counter =
      (filterPipeline (cf_base_name day title counter)).take 255 := rfl
  rw [hstep, List.take_of_length_le (le_trans (filterPipeline_length_le _) h), hb,
    filterPipeline_append_counter]

set_option maxRecDepth 40000 in
/-- C2 counterexample: for a 300-character title the base name exceeds the
255-character truncation limit of `pathvalidate.sanitize_filename`, the
ordinal is cut off, and the ordinals 1 and 2 yield the same filename. -/
theorem createFilename_ordinal_collision :
    (1 : Nat) ≠ 2 ∧
    create_filename ⟨2023, 1, 1⟩ (List.replicate 300 'a') 1 (S "https://x/im.jpg") =
      create_filename ⟨2023, 1, 1⟩ (List.replicate 300 'a') 2 (S "https://x/im.jpg") := by
  constructor
  · decide
  · decide

/-- C2 (amended): for a fixed date and title, `create_filename` is injective
over the ordinal as long as the base name `{date}_{title}-{ordinal}` stays
within the 255-character truncation limit of `sanitize_filename` (as it always
does for the 25-character titles the scraper passes); distinct ordinals then
never produce the same string. -/
theorem createFilename_ordinal_injective (day : Date) (title : PyStr) (c1 c2 : Nat)
    (url : PyStr) (h1 : (cf_base_name day title c1).length ≤ 255)
    (h2 : (cf_base_name day title c2).length ≤ 255) (hne : c1 ≠ c2) :
    create_filename day title c1 url ≠ create_filename day title c2 url := by
  intro heq
  rw [create_filename_eq_base_ext day title c1 url,
    create_filename_eq_base_ext day title c2 url] at heq
  have hsb : cf_sanitized_base day title c1 = cf_sanitized_base day title c2 := by
    by_cases he : cf_extension url = []
    · simpa [he] using heq
    · simp only [he, if_false] at heq
      exact List.append_cancel_right heq
  rw [cf_sanitized_base_eq day title c1 h1, cf_sanitized_base_eq day title c2 h2] at hsb
  have hd := List.append_cancel_left hsb
  rw [List.cons.injEq] at hd
  exact hne (pyStrNat_injective c1 c2 hd.2)

/-- Witness for C2 at concrete inputs: a short title keeps both base names
under 255 characters, and the filenames for ordinals 1 and 2 differ. -/
theorem createFilename_ordinal_injective_witness :
    (cf_base_name ⟨2023, 1, 1⟩ (S "Test Title") 1).length ≤ 255 ∧
    (cf_base_name ⟨2023, 1, 1⟩ (S "Test Title") 2).length ≤ 255 ∧
    (1 : Nat) ≠ 2 ∧
    create_filename ⟨2023, 1, 1⟩ (S "Test Title") 1 (S "https://x/a.jpg") ≠
      create_filename ⟨2023, 1, 1⟩ (S "Test Title") 2 (S "https://x/a.jpg") :=
  ⟨by decide, by decide, by decide,
    createFilename_ordinal_injective ⟨2023, 1, 1⟩ (S "Test Title") 1 2 (S "https://x/a.jpg")
      (by decide) (by decide) (by decide)⟩

end KitaScraper
